import Mathlib

/-!
Shallow embedding of the Relacon device-access core: the capability table,
the protocol encoder/decoder (`ReadNumericResponse`, `WriteFormattedCmd`),
the public session operations, the enumeration logic of both transport
backends, and a small allocator model for the string-ownership discipline.
All definitions are translated from the C sources of the repository.
-/

namespace Relacon

/-- Result codes of the public API, from `enum RelaconStatus` in Relacon.h.
`ERROR_DEVICE_IO_FAIL` renders the source's device-I/O error constant. -/
inductive RelaconStatus where
  | SUCCESS
  | ERROR_ARGUMENT_NULL
  | ERROR_INVALID_PARAM
  | ERROR_OUT_OF_MEMORY
  | ERROR_TIMEOUT
  | ERROR_BAD_RESPONSE
  | ERROR_DEVICE_IO_FAIL
  | ERROR_INTERNAL
  | ERROR_NO_ENTRY
deriving DecidableEq, Repr

/-- Device capability record from DeviceCapabilities.h. -/
structure DeviceCapabilities where
  numInputs : Nat
  numRelays : Nat
deriving DecidableEq, Repr

/-- One row of the supported-device table (struct DeviceTableEntry). -/
structure DeviceTableEntry where
  vid : Nat
  pid : Nat
  capabilities : DeviceCapabilities
deriving DecidableEq, Repr

/-- The compiled `SUPPORTED_DEVICES` table. The source also contains an
OnTrak ADU200 row (vid 0x0a07, pid 200, 4 inputs / 4 relays) but it is
commented out ("Not yet tested/supported"), so it is not part of the
compiled table. -/
def SUPPORTED_DEVICES : List DeviceTableEntry :=
  [ ⟨0x0a07, 208, ⟨8, 8⟩⟩,
    ⟨0x0a07, 218, ⟨8, 8⟩⟩,
    ⟨0x1209, 0xFA70, ⟨8, 8⟩⟩ ]

/-- Linear scan of the table, first match wins (the loop body of
`DeviceCapabilitiesQuery`). -/
def queryTable : List DeviceTableEntry → Nat → Nat → Option DeviceCapabilities
  | [], _, _ => none
  | e :: rest, vid, pid =>
      if e.vid = vid ∧ e.pid = pid then some e.capabilities
      else queryTable rest vid pid

/-- `DeviceCapabilitiesQuery` from DeviceCapabilities.c: returns the
capabilities of a supported (vid, pid) pair, or NULL (`none`). -/
def DeviceCapabilitiesQuery (vid pid : Nat) : Option DeviceCapabilities :=
  queryTable SUPPORTED_DEVICES vid pid

/-- The constant command report identifier (REPORT_ID_CMD in Relacon.c). -/
def REPORT_ID_CMD : Nat := 1

/-- Outcome of one `BackendDeviceReadReport` call: transport failure,
timeout, or a received 8-byte report split as identifier byte plus the
7 payload bytes. -/
inductive ReadOutcome where
  | ioFail
  | timedOut
  | report (id : Nat) (payload : List Nat)
deriving DecidableEq, Repr

/-- Transport behaviour a session operation runs against: whether the
report write is accepted, and what the subsequent report read yields. -/
structure Transport where
  writeOk : Bool
  read : ReadOutcome
deriving DecidableEq, Repr

/-- Bytes of a C string: everything before the first NUL byte. -/
def cString (bytes : List Nat) : List Nat := bytes.takeWhile (· ≠ 0)

/-- The whitespace test of `strtol`'s leading-whitespace skip (C `isspace`). -/
def isSpaceByte (c : Nat) : Bool :=
  c = 32 || c = 9 || c = 10 || c = 11 || c = 12 || c = 13

/-- ASCII decimal digit test. -/
def isDigitByte (c : Nat) : Bool := 48 ≤ c && c ≤ 57

/-- Numeric value of a run of ASCII digits. -/
def digitsVal (digs : List Nat) : Nat :=
  digs.foldl (fun a d => a * 10 + (d - 48)) 0

/-- Model of `strtol(s, &endptr, 10)` on a NUL-free byte string `s`:
skip whitespace, then an optional sign, then a maximal run of digits.
Returns the parsed value and the number of bytes consumed (the offset of
`endptr`). Per the C standard, if no digit is consumed then no conversion
is performed: the value is 0 and `endptr` is reset to the start of the
string (0 bytes consumed). The 7-byte payloads here are too short to
overflow a `long`. -/
def strtol10 (s : List Nat) : Int × Nat :=
  let ws := (s.takeWhile isSpaceByte).length
  let r1 := s.drop ws
  let signLen : Nat :=
    match r1 with
    | 43 :: _ => 1
    | 45 :: _ => 1
    | _ => 0
  let neg : Bool :=
    match r1 with
    | 45 :: _ => true
    | _ => false
  let digs := (r1.drop signLen).takeWhile isDigitByte
  if digs.isEmpty then (0, 0)
  else ((if neg then -(digitsVal digs : Int) else (digitsVal digs : Int)),
        ws + signLen + digs.length)

/-- `ReadNumericResponse` from Relacon.c: read one report, reject a wrong
report identifier, parse the payload with `strtol` base 10, reject when
`*endptr` is not the NUL terminator or the value is out of `[lo, hi]`,
otherwise succeed with the parsed value. The payload is assumed to hold a
NUL within its 7 bytes (otherwise the C `strtol` would read past the
report buffer). -/
def ReadNumericResponse (lo hi : Int) (outcome : ReadOutcome) :
    RelaconStatus × Option Int :=
  match outcome with
  | .ioFail => (.ERROR_DEVICE_IO_FAIL, none)
  | .timedOut => (.ERROR_TIMEOUT, none)
  | .report id payload =>
      if id ≠ REPORT_ID_CMD then (.ERROR_BAD_RESPONSE, none)
      else
        let s := cString payload
        let p := strtol10 s
        if p.2 ≠ s.length then (.ERROR_BAD_RESPONSE, none)
        else if p.1 < lo ∨ hi < p.1 then (.ERROR_BAD_RESPONSE, none)
        else (.SUCCESS, some p.1)

/-- Modelled from the claim's words (for comparison with the code): a
payload is a valid decimal integer fully consumed up to the NUL terminator
when the bytes before the NUL are an optional sign followed by at least
one digit and nothing else. -/
def SpecValidDecimal (payload : List Nat) : Bool :=
  let s := cString payload
  let body :=
    match s with
    | 43 :: rest => rest
    | 45 :: rest => rest
    | _ => s
  !body.isEmpty && body.all isDigitByte

/-- ASCII decimal rendering of a number, as produced by printf %d for a
non-negative argument. -/
def decAscii (n : Nat) : List Nat := (Nat.toDigits 10 n).map Char.toNat

/-- The per-device state a session operation reads: the capability counts
stored in `dev->info` at open time. -/
structure DevState where
  numRelays : Nat
  numInputs : Nat
deriving DecidableEq, Repr

/-- Result of a write-only session operation: its status and the list of
8-byte report buffers handed to `BackendDeviceWriteReport`. -/
structure WriteOpOutcome where
  status : RelaconStatus
  sent : List (List Nat)
deriving DecidableEq, Repr

/-- Result of a read session operation: status, the value stored through
the caller's output pointer (if any), the reports handed to the backend,
and whether the operation stored through a NULL output pointer. -/
structure ReadOpOutcome where
  status : RelaconStatus
  stored : Option Nat
  sent : List (List Nat)
  nullStore : Bool
deriving DecidableEq, Repr

/-- `WriteFormattedCmd` from Relacon.c, applied to an already-formatted
command byte string `s` (the result of the vsnprintf template): reject a
formatted length above REPORT_DATA_LEN (7) as internal error before
sending; otherwise build the report as the identifier byte 1 followed by
the 7 data bytes. vsnprintf is given a buffer of 7 bytes, so it writes at
most 6 command bytes plus a NUL; the memset then zero-pads the remainder.
A 7-byte command therefore passes the length check but is truncated to
6 bytes. The write is attempted regardless of the transport's answer. -/
def WriteFormattedCmd (t : Transport) (s : List Nat) : WriteOpOutcome :=
  if 7 < s.length then ⟨.ERROR_INTERNAL, []⟩
  else
    let data :=
      if s.length ≤ 6 then s ++ List.replicate (7 - s.length) 0
      else s.take 6 ++ [0]
    ⟨(if t.writeOk then .SUCCESS else .ERROR_DEVICE_IO_FAIL),
     [REPORT_ID_CMD :: data]⟩

/-- `RelaconDeviceSingleRelayWrite`: NULL check, then the relay-index
check. The source returns RELACON_STATUS_ERROR_ARGUMENT_NULL (not
ERROR_INVALID_PARAM) when `relay >= dev->info.numRelays`, then formats
"SK%d" or "RK%d". -/
def RelaconDeviceSingleRelayWrite (dev : Option DevState) (relay : Nat)
    (assert : Bool) (t : Transport) : WriteOpOutcome :=
  match dev with
  | none => ⟨.ERROR_ARGUMENT_NULL, []⟩
  | some d =>
      if d.numRelays ≤ relay then ⟨.ERROR_ARGUMENT_NULL, []⟩
      else WriteFormattedCmd t ((if assert then [83, 75] else [82, 75]) ++ decAscii relay)

/-- `RelaconDeviceSingleRelayRead`: the source's second NULL guard tests
`dev` again instead of the output pointer, so a NULL `isAsserted` is not
rejected (`outNull` flows through). The relay-index check again returns
ERROR_ARGUMENT_NULL. On a good "RPK%d" exchange the value is stored as a
C bool (nonzero becomes 1), through NULL if `outNull`. -/
def RelaconDeviceSingleRelayRead (dev : Option DevState) (relay : Nat)
    (outNull : Bool) (t : Transport) : ReadOpOutcome :=
  match dev with
  | none => ⟨.ERROR_ARGUMENT_NULL, none, [], false⟩
  | some d =>
      if d.numRelays ≤ relay then ⟨.ERROR_ARGUMENT_NULL, none, [], false⟩
      else
        let w := WriteFormattedCmd t ([82, 80, 75] ++ decAscii relay)
        if w.status = .SUCCESS then
          match ReadNumericResponse 0 1 t.read with
          | (.SUCCESS, some v) =>
              if outNull then ⟨.SUCCESS, none, w.sent, true⟩
              else ⟨.SUCCESS, some (if v = 0 then 0 else 1), w.sent, false⟩
          | (st, _) => ⟨st, none, w.sent, false⟩
        else ⟨w.status, none, w.sent, false⟩

/-- `RelaconDeviceRelaysRead`: sends "PK" and reads back the port value in
[0, 255]. The source's second NULL guard tests `dev` again instead of the
output pointer `value`, so a NULL output pointer is not rejected and a
successful exchange stores through it. -/
def RelaconDeviceRelaysRead (dev : Option DevState) (outNull : Bool)
    (t : Transport) : ReadOpOutcome :=
  match dev with
  | none => ⟨.ERROR_ARGUMENT_NULL, none, [], false⟩
  | some _ =>
      let w := WriteFormattedCmd t [80, 75]
      if w.status = .SUCCESS then
        match ReadNumericResponse 0 255 t.read with
        | (.SUCCESS, some v) =>
            if outNull then ⟨.SUCCESS, none, w.sent, true⟩
            else ⟨.SUCCESS, some (v.toNat % 256), w.sent, false⟩
        | (st, _) => ⟨st, none, w.sent, false⟩
      else ⟨w.status, none, w.sent, false⟩

/-- `RelaconDeviceEventCounterGet`: NULL checks (this one does test the
output pointer), counter-range check returning ERROR_INVALID_PARAM, then
"R%c%d" with 'C' when clearing and 'E' otherwise. On success the source
stores `(uint8_t)tmp` into the uint16_t output, so the parsed value is
truncated modulo 256. -/
def RelaconDeviceEventCounterGet (dev : Option DevState) (counter : Nat)
    (clear : Bool) (outNull : Bool) (t : Transport) : ReadOpOutcome :=
  match dev with
  | none => ⟨.ERROR_ARGUMENT_NULL, none, [], false⟩
  | some d =>
      if outNull then ⟨.ERROR_ARGUMENT_NULL, none, [], false⟩
      else if d.numInputs ≤ counter then ⟨.ERROR_INVALID_PARAM, none, [], false⟩
      else
        let w := WriteFormattedCmd t ([82, if clear then 67 else 69] ++ decAscii counter)
        if w.status = .SUCCESS then
          match ReadNumericResponse 0 65535 t.read with
          | (.SUCCESS, some v) => ⟨.SUCCESS, some (v.toNat % 256), w.sent, false⟩
          | (st, _) => ⟨st, none, w.sent, false⟩
        else ⟨w.status, none, w.sent, false⟩

/-- `RelaconDeviceEventCounterDebounceSet`: the config value (an enum
passed as an int) must lie in [0, 2], otherwise ERROR_INVALID_PARAM before
any report is sent; then "DB%d". -/
def RelaconDeviceEventCounterDebounceSet (dev : Option DevState)
    (config : Int) (t : Transport) : WriteOpOutcome :=
  match dev with
  | none => ⟨.ERROR_ARGUMENT_NULL, []⟩
  | some _ =>
      if config < 0 ∨ 2 < config then ⟨.ERROR_INVALID_PARAM, []⟩
      else WriteFormattedCmd t ([68, 66] ++ decAscii config.toNat)

/-- `RelaconDeviceWatchdogSet`: the config value must lie in [0, 3],
otherwise ERROR_INVALID_PARAM before any report is sent; then "WD%d". -/
def RelaconDeviceWatchdogSet (dev : Option DevState) (config : Int)
    (t : Transport) : WriteOpOutcome :=
  match dev with
  | none => ⟨.ERROR_ARGUMENT_NULL, []⟩
  | some _ =>
      if config < 0 ∨ 3 < config then ⟨.ERROR_INVALID_PARAM, []⟩
      else WriteFormattedCmd t ([87, 68] ++ decAscii config.toNat)

/-- `RelaconDeviceGetInfo`, tracking pointer misuse: the result is the
status, whether the NULL-device branch dereferenced the NULL device (the
source's LOG_ERROR there reads `&dev->api->log` while `dev` is NULL), and
whether `*devInfo = dev->info` stored through a NULL output pointer (the
source never checks `devInfo`). -/
def RelaconDeviceGetInfo (dev : Option DevState) (outNull : Bool) :
    RelaconStatus × Bool × Bool :=
  match dev with
  | none => (.ERROR_ARGUMENT_NULL, true, false)
  | some _ => (.SUCCESS, false, outNull)

/-- Model of `strncpy(dst, src, n)` as the n bytes written to `dst`:
source bytes up to the first NUL, then NUL padding; if no NUL occurs in
the first n source bytes, exactly n bytes are copied and none of them is a
NUL. A C call is only well-defined when the source memory extends for n
bytes or holds an earlier NUL; the exhausted-source case is padded here. -/
def strncpyBytes (src : List Nat) (n : Nat) : List Nat :=
  match n, src with
  | 0, _ => []
  | m + 1, [] => List.replicate (m + 1) 0
  | m + 1, b :: rest =>
      if b = 0 then List.replicate (m + 1) 0 else b :: strncpyBytes rest m

/-- `RelaconDeviceRawWrite`: NULL checks, ERROR_INVALID_PARAM when
`strlen(cmd) > 7` before anything is sent, otherwise the report is the
identifier byte followed by `strncpy(&reportBuf[1], cmd, 7)`. `cmd` is
the NUL-free content of the command string. -/
def RelaconDeviceRawWrite (dev : Option DevState) (cmd : Option (List Nat))
    (t : Transport) : WriteOpOutcome :=
  match dev with
  | none => ⟨.ERROR_ARGUMENT_NULL, []⟩
  | some _ =>
      match cmd with
      | none => ⟨.ERROR_ARGUMENT_NULL, []⟩
      | some c =>
          if 7 < c.length then ⟨.ERROR_INVALID_PARAM, []⟩
          else ⟨(if t.writeOk then .SUCCESS else .ERROR_DEVICE_IO_FAIL),
                [REPORT_ID_CMD :: strncpyBytes c 7]⟩

/-- `RelaconDeviceRawRead`: NULL checks, then one report read with the
caller's timeout; on success `strncpy(buf, &reportBuf[1], len)` copies the
response into the caller's buffer. `memBeyond` are the memory bytes that
follow the 7 payload bytes of the report buffer (read only when `len`
runs past a payload with no NUL). The second component is the `len` bytes
written to the caller's buffer. -/
def RelaconDeviceRawRead (dev : Option DevState) (bufNull : Bool)
    (len : Nat) (memBeyond : List Nat) (outcome : ReadOutcome) :
    RelaconStatus × Option (List Nat) :=
  match dev with
  | none => (.ERROR_ARGUMENT_NULL, none)
  | some _ =>
      if bufNull then (.ERROR_ARGUMENT_NULL, none)
      else
        match outcome with
        | .ioFail => (.ERROR_DEVICE_IO_FAIL, none)
        | .timedOut => (.ERROR_TIMEOUT, none)
        | .report _ payload =>
            (.SUCCESS, some (strncpyBytes (payload ++ memBeyond) len))

/-- A listing entry (`struct RelaconDeviceInfo` by value, with the opaque
backend handle left implicit: in this model the entry itself is what the
handle resolves to). -/
structure RelaconDeviceInfo where
  vid : Nat
  pid : Nat
  serialNum : Option String
  manufacturer : Option String
  product : Option String
  numRelays : Nat
  numInputs : Nat
deriving DecidableEq, Repr

/-- The filter test inside `FindFirstMatchingDevice`'s loop: vid 0 and
pid 0 are wildcards, a NULL serial filter is a wildcard, and a supplied
serial matches only a candidate that has a serial string strcmp-equal to
it. -/
def deviceMatches (vid pid : Nat) (serial : Option String)
    (c : RelaconDeviceInfo) : Bool :=
  (vid = 0 || vid = c.vid) && (pid = 0 || pid = c.pid) &&
  (match serial with
   | none => true
   | some s =>
       match c.serialNum with
       | none => false
       | some cs => s = cs)

/-- `FindFirstMatchingDevice` from Relacon.c: walk the backend listing in
enumeration order and return the first entry passing the filter test, or
NULL. -/
def FindFirstMatchingDevice (l : List RelaconDeviceInfo) (vid pid : Nat)
    (serial : Option String) : Option RelaconDeviceInfo :=
  match l with
  | [] => none
  | c :: rest =>
      if deviceMatches vid pid serial c then some c
      else FindFirstMatchingDevice rest vid pid serial

/-- `RelaconDeviceOpen` over an abstract backend listing: create the
transient listing, select the first matching entry, open it through the
backend (`backendOpenOk`), allocate the RelaconDevice (`devAllocOk`), copy
the entry's info, destroy the transient listing, and return the session
(or NULL when any step fails). The string copies are modelled separately
by `SessionCopyStrings`. -/
def RelaconDeviceOpen (entries : List RelaconDeviceInfo) (vid pid : Nat)
    (serial : Option String) (backendOpenOk devAllocOk : Bool) :
    Option RelaconDeviceInfo :=
  match FindFirstMatchingDevice entries vid pid serial with
  | none => none
  | some info =>
      if backendOpenOk then
        if devAllocOk then some info else none
      else none

/-- Lookup of a cell id in an allocation list. -/
def lookupCell : List (Nat × String) → Nat → Option String
  | [], _ => none
  | c :: rest, p => if c.1 = p then some c.2 else lookupCell rest p

/-- Removal of a cell id from an allocation list. -/
def removeCell : List (Nat × String) → Nat → List (Nat × String)
  | [], _ => []
  | c :: rest, p => if c.1 = p then removeCell rest p else c :: removeCell rest p

/-- A heap of allocated C strings: a fresh-id counter and the live cells
(id, contents). -/
structure StrHeap where
  next : Nat
  cells : List (Nat × String)
deriving DecidableEq, Repr

/-- Allocate a new string cell (malloc + copy) and return the new heap and
the pointer. -/
def StrHeap.alloc (h : StrHeap) (s : String) : StrHeap × Nat :=
  (⟨h.next + 1, (h.next, s) :: h.cells⟩, h.next)

/-- Free the cell behind a pointer. -/
def StrHeap.free (h : StrHeap) (p : Nat) : StrHeap :=
  ⟨h.next, removeCell h.cells p⟩

/-- Read the string behind a live pointer; `none` for a dangling pointer. -/
def StrHeap.deref (h : StrHeap) (p : Nat) : Option String :=
  lookupCell h.cells p

/-- Heap well-formedness: every live cell id was produced by the counter. -/
def StrHeap.WF (h : StrHeap) : Prop := ∀ c ∈ h.cells, c.1 < h.next

/-- The three string pointers of a `RelaconDeviceInfo` (NULL allowed). -/
structure InfoStrings where
  serialNum : Option Nat
  manufacturer : Option Nat
  product : Option Nat
deriving DecidableEq, Repr

/-- Model of `strdup` on an optional pointer: NULL stays NULL, otherwise
the contents are copied into a fresh allocation. Dereferencing a dead
pointer has no C meaning; the model returns NULL there and theorems assume
liveness. -/
def strdupPtr (h : StrHeap) (p : Option Nat) : StrHeap × Option Nat :=
  match p with
  | none => (h, none)
  | some q =>
      match h.deref q with
      | none => (h, none)
      | some s =>
          let a := h.alloc s
          (a.1, some a.2)

/-- The string-copy block of `RelaconDeviceOpen` (dev->info.product,
manufacturer and serialNum are each strdup'd from the listing entry, in
that source order). -/
def SessionCopyStrings (h : StrHeap) (info : InfoStrings) :
    StrHeap × InfoStrings :=
  let ap := strdupPtr h info.product
  let am := strdupPtr ap.1 info.manufacturer
  let asn := strdupPtr am.1 info.serialNum
  (asn.1, ⟨asn.2, am.2, ap.2⟩)

/-- Free an optional pointer (`free(NULL)` is a no-op). -/
def freeOpt (h : StrHeap) (p : Option Nat) : StrHeap :=
  match p with
  | none => h
  | some q => h.free q

/-- Destroying a listing frees each entry's strings (the backends'
`DeviceInfoDestroy` and `DeviceInfoFree` free manufacturer, product and
serialNum). -/
def ListingEntryDestroy (h : StrHeap) (info : InfoStrings) : StrHeap :=
  freeOpt (freeOpt (freeOpt h info.manufacturer) info.product) info.serialNum

/-- `RelaconDeviceClose` frees the session's own product, manufacturer and
serialNum copies, in that source order. -/
def SessionClose (h : StrHeap) (s : InfoStrings) : StrHeap :=
  freeOpt (freeOpt (freeOpt h s.product) s.manufacturer) s.serialNum

/-- Outcome of one hidapi `FetchString` call for one descriptor: absent
descriptor (not an error), a fetched string, a malloc failure, or a
wide-to-ASCII conversion failure. -/
inductive HidFetchOutcome where
  | absent
  | fetched (s : String)
  | oom
  | convFail
deriving DecidableEq, Repr

/-- What lands in the devInfo string field after `FetchString`: only a
successful fetch assigns a string. On the oom and convFail paths the out
parameter is left untouched, so the field keeps its NULL initialisation;
`DeviceInfoPopulate` discards the returned status in all cases. -/
def hidFetchResult : HidFetchOutcome → Option String
  | .fetched s => some s
  | _ => none

/-- One raw hidapi enumeration entry together with the outcomes of the
platform calls made for it: whether the entry-struct malloc succeeds,
whether `hid_open_path` succeeds for the string-descriptor fetch, and the
outcome of each of the three string fetches. -/
structure HidDev where
  vendorId : Nat
  productId : Nat
  usage : Nat
  entryAllocOk : Bool
  openOk : Bool
  manufacturerFetch : HidFetchOutcome
  productFetch : HidFetchOutcome
  serialFetch : HidFetchOutcome
deriving DecidableEq, Repr

/-- `IsPotentialRelaconDevice`: with FILTER_HID_COLLECTION_USAGE defined
(Windows) only usage 0x01 passes; elsewhere every device is eligible. -/
def IsPotentialRelaconDevice (filterUsage : Bool) (d : HidDev) : Bool :=
  if filterUsage then d.usage = 1 else true

/-- `DeviceInfoPopulate` from BackendHidapi.c: the entry is filled from the
capability table; when `hid_open_path` fails a warning is logged and the
three strings stay NULL, but the entry itself is still produced. -/
def DeviceInfoPopulateHidapi (d : HidDev) (cap : DeviceCapabilities) :
    RelaconDeviceInfo :=
  if d.openOk then
    ⟨d.vendorId, d.productId, hidFetchResult d.serialFetch,
     hidFetchResult d.manufacturerFetch, hidFetchResult d.productFetch,
     cap.numRelays, cap.numInputs⟩
  else
    ⟨d.vendorId, d.productId, none, none, none, cap.numRelays, cap.numInputs⟩

/-- `DeviceListEntriesCreate` from BackendHidapi.c: walk the raw hidapi
list; unrecognised or ineligible entries are skipped; a failing list-entry
malloc sets OUT_OF_MEMORY and breaks, after which every already-created
entry is destroyed (so the surviving entry list is empty). -/
def DeviceListEntriesCreateHidapi (filterUsage : Bool) :
    List HidDev → RelaconStatus × List RelaconDeviceInfo
  | [] => (.SUCCESS, [])
  | d :: rest =>
      match DeviceCapabilitiesQuery d.vendorId d.productId with
      | none => DeviceListEntriesCreateHidapi filterUsage rest
      | some cap =>
          if IsPotentialRelaconDevice filterUsage d then
            if d.entryAllocOk then
              let e := DeviceInfoPopulateHidapi d cap
              let r := DeviceListEntriesCreateHidapi filterUsage rest
              (r.1, if r.1 = .SUCCESS then e :: r.2 else [])
            else (.ERROR_OUT_OF_MEMORY, [])
          else DeviceListEntriesCreateHidapi filterUsage rest

/-- Outcome of one libusb `FetchStringDescriptor` call: descriptor index 0
(NO_ENTRY, tolerated), a malloc failure (OUT_OF_MEMORY), a failed control
transfer (INTERNAL), or a fetched string. -/
inductive UsbFetchOutcome where
  | noDescriptor
  | allocFail
  | transferFail
  | fetched (s : String)
deriving DecidableEq, Repr

/-- The status `FetchStringDescriptor` returns for an outcome. -/
def usbFetchStatus : UsbFetchOutcome → RelaconStatus
  | .noDescriptor => .ERROR_NO_ENTRY
  | .allocFail => .ERROR_OUT_OF_MEMORY
  | .transferFail => .ERROR_INTERNAL
  | .fetched _ => .SUCCESS

/-- Whether an outcome is fatal to `PopulateDeviceInfoStrings` (anything
but success or a missing descriptor). -/
def usbFetchFatal (o : UsbFetchOutcome) : Bool :=
  match o with
  | .allocFail => true
  | .transferFail => true
  | _ => false

/-- The string a fetch outcome leaves in its devInfo field. -/
def usbFetchStr : UsbFetchOutcome → Option String
  | .fetched s => some s
  | _ => none

/-- One libusb enumeration entry together with the outcomes of the
platform calls made for it. -/
structure UsbDev where
  vendorId : Nat
  productId : Nat
  entryAllocOk : Bool
  openOk : Bool
  manufacturerFetch : UsbFetchOutcome
  productFetch : UsbFetchOutcome
  serialFetch : UsbFetchOutcome
deriving DecidableEq, Repr

/-- `PopulateDeviceInfoStrings` from the libusb backend: INTERNAL when the
device cannot be opened; otherwise the three descriptors are fetched in
order manufacturer, product, serial, stopping at the first fatal outcome,
whose status is propagated. -/
def PopulateDeviceInfoStringsUsb (d : UsbDev) : RelaconStatus :=
  if d.openOk then
    if usbFetchFatal d.manufacturerFetch then usbFetchStatus d.manufacturerFetch
    else if usbFetchFatal d.productFetch then usbFetchStatus d.productFetch
    else if usbFetchFatal d.serialFetch then usbFetchStatus d.serialFetch
    else .SUCCESS
  else .ERROR_INTERNAL

/-- `DeviceListEntryCreate` from the libusb backend: OUT_OF_MEMORY when the
entry malloc fails; otherwise populate the entry and its strings, freeing
the entry again (error result) when string population fails. -/
def DeviceListEntryCreateUsb (d : UsbDev) (cap : DeviceCapabilities) :
    Except RelaconStatus RelaconDeviceInfo :=
  if d.entryAllocOk then
    let st := PopulateDeviceInfoStringsUsb d
    if st = .SUCCESS then
      .ok ⟨d.vendorId, d.productId, usbFetchStr d.serialFetch,
           usbFetchStr d.manufacturerFetch, usbFetchStr d.productFetch,
           cap.numRelays, cap.numInputs⟩
    else .error st
  else .error .ERROR_OUT_OF_MEMORY

/-- `DeviceListEntriesCreate` from the libusb backend: unrecognised
devices are skipped; a failed entry creation is swallowed (status reset to
SUCCESS) and enumeration continues, except OUT_OF_MEMORY, which destroys
every entry created so far and aborts with OUT_OF_MEMORY. An OOM deeper in
the list therefore also discards the entries created before it. -/
def DeviceListEntriesCreateUsb :
    List UsbDev → RelaconStatus × List RelaconDeviceInfo
  | [] => (.SUCCESS, [])
  | d :: rest =>
      match DeviceCapabilitiesQuery d.vendorId d.productId with
      | none => DeviceListEntriesCreateUsb rest
      | some cap =>
          match DeviceListEntryCreateUsb d cap with
          | .ok e =>
              let r := DeviceListEntriesCreateUsb rest
              (r.1, if r.1 = .ERROR_OUT_OF_MEMORY then [] else e :: r.2)
          | .error st =>
              if st = .ERROR_OUT_OF_MEMORY then (.ERROR_OUT_OF_MEMORY, [])
              else DeviceListEntriesCreateUsb rest

/-- C10: the capability lookup maps exactly (0x0a07, 208), (0x0a07, 218)
and (0x1209, 0xFA70) to 8 relays and 8 inputs and returns NULL for every
other pair, in particular for the ADU200 pair (0x0a07, 200). -/
theorem deviceCapabilitiesQuery_spec :
    (∀ vid pid : Nat,
      DeviceCapabilitiesQuery vid pid =
        if (vid = 0x0a07 ∧ pid = 208) ∨ (vid = 0x0a07 ∧ pid = 218) ∨
            (vid = 0x1209 ∧ pid = 0xFA70)
        then some ⟨8, 8⟩ else none) ∧
    DeviceCapabilitiesQuery 0x0a07 200 = none := by
  constructor
  · intro vid pid
    by_cases h1 : vid = 0x0a07 ∧ pid = 208
    · obtain ⟨hv, hp⟩ := h1
      subst hv; subst hp; decide
    · by_cases h2 : vid = 0x0a07 ∧ pid = 218
      · obtain ⟨hv, hp⟩ := h2
        subst hv; subst hp; decide
      · by_cases h3 : vid = 0x1209 ∧ pid = 0xFA70
        · obtain ⟨hv, hp⟩ := h3
          subst hv; subst hp; decide
        · have hno : ¬((vid = 0x0a07 ∧ pid = 208) ∨ (vid = 0x0a07 ∧ pid = 218) ∨
              (vid = 0x1209 ∧ pid = 0xFA70)) := by tauto
          rw [if_neg hno]
          show queryTable SUPPORTED_DEVICES vid pid = none
          simp only [SUPPORTED_DEVICES, queryTable]
          rw [if_neg, if_neg, if_neg]
          · intro hc
            exact h3 ⟨hc.1.symm, hc.2.symm⟩
          · intro hc
            exact h2 ⟨hc.1.symm, hc.2.symm⟩
          · intro hc
            exact h1 ⟨hc.1.symm, hc.2.symm⟩
  · decide

/-- C2: evaluation of each argument-validation path on a concrete 8-relay,
8-input device. An out-of-range relay index makes the single-relay write
and read return ERROR_ARGUMENT_NULL (not ERROR_INVALID_PARAM as documented
and claimed) while sending nothing; an out-of-range counter index,
debounce code or watchdog code returns ERROR_INVALID_PARAM and sends
nothing. -/
theorem argumentValidation_statusCodes :
    RelaconDeviceSingleRelayWrite (some ⟨8, 8⟩) 8 true ⟨true, .timedOut⟩ =
      ⟨.ERROR_ARGUMENT_NULL, []⟩ ∧
    RelaconDeviceSingleRelayRead (some ⟨8, 8⟩) 8 false ⟨true, .timedOut⟩ =
      ⟨.ERROR_ARGUMENT_NULL, none, [], false⟩ ∧
    RelaconDeviceEventCounterGet (some ⟨8, 8⟩) 8 false false ⟨true, .timedOut⟩ =
      ⟨.ERROR_INVALID_PARAM, none, [], false⟩ ∧
    RelaconDeviceEventCounterDebounceSet (some ⟨8, 8⟩) 3 ⟨true, .timedOut⟩ =
      ⟨.ERROR_INVALID_PARAM, []⟩ ∧
    RelaconDeviceEventCounterDebounceSet (some ⟨8, 8⟩) (-1) ⟨true, .timedOut⟩ =
      ⟨.ERROR_INVALID_PARAM, []⟩ ∧
    RelaconDeviceWatchdogSet (some ⟨8, 8⟩) 4 ⟨true, .timedOut⟩ =
      ⟨.ERROR_INVALID_PARAM, []⟩ := by
  decide

/-- C3: the event-counter read sends the claimed RE0 command, but a
response value of 256 (inside the declared [0, 65535] range) is stored as
0: the source casts the parsed long to uint8_t before assigning it to the
caller's uint16_t output, truncating every value above 255. -/
theorem eventCounterGet_truncates_value :
    RelaconDeviceEventCounterGet (some ⟨8, 8⟩) 0 false false
        ⟨true, .report 1 [50, 53, 54, 0, 0, 0, 0]⟩ =
      ⟨.SUCCESS, some 0, [[1, 82, 69, 48, 0, 0, 0, 0]], false⟩ := by
  decide

/-- C9: the relay-port read called with a NULL output pointer is not
rejected (the source's second NULL guard re-tests `dev`): it sends the PK
report, succeeds, and stores through the NULL pointer. GetInfo with a NULL
device dereferences the NULL device in its own error-logging call, and
GetInfo with a NULL output structure stores through it unchecked. -/
theorem nullOutputPointer_unchecked :
    RelaconDeviceRelaysRead (some ⟨8, 8⟩) true
        ⟨true, .report 1 [53, 0, 0, 0, 0, 0, 0]⟩ =
      ⟨.SUCCESS, none, [[1, 80, 75, 0, 0, 0, 0, 0]], true⟩ ∧
    RelaconDeviceGetInfo none false = (.ERROR_ARGUMENT_NULL, true, false) ∧
    RelaconDeviceGetInfo (some ⟨8, 8⟩) true = (.SUCCESS, false, true) := by
  decide

/-- C1 counterexample: an all-NUL payload is not a valid decimal integer,
yet the decoder accepts it: strtol performs no conversion, leaves endptr
at the leading NUL, and the response parses as the in-range value 0, so
the operation succeeds instead of returning ERROR_BAD_RESPONSE. -/
theorem readNumericResponse_claim_counterexample :
    ¬ ((1 ≠ REPORT_ID_CMD ∨ SpecValidDecimal [0, 0, 0, 0, 0, 0, 0] = false) →
        ReadNumericResponse 0 255 (.report 1 [0, 0, 0, 0, 0, 0, 0]) =
          (.ERROR_BAD_RESPONSE, none)) := by
  decide

/-- C1 (amended): for a received report whose payload carries a NUL
terminator, the decoder returns ERROR_BAD_RESPONSE with no value exactly
when the report identifier differs from 1, or the strtol base-10 parse
(leading whitespace and an optional sign allowed; a parse consuming no
digits yields 0 at the start of the payload) does not end at the NUL
terminator, or the parsed value lies outside [lo, hi]; otherwise it
returns success with the parsed value. -/
theorem readNumericResponse_amended (id : Nat) (payload : List Nat)
    (lo hi : Int) (hnul : 0 ∈ payload) :
    (ReadNumericResponse lo hi (.report id payload) = (.ERROR_BAD_RESPONSE, none) ↔
      (id ≠ REPORT_ID_CMD ∨
       (strtol10 (cString payload)).2 ≠ (cString payload).length ∨
       (strtol10 (cString payload)).1 < lo ∨ hi < (strtol10 (cString payload)).1)) ∧
    ((id = REPORT_ID_CMD ∧
      (strtol10 (cString payload)).2 = (cString payload).length ∧
      lo ≤ (strtol10 (cString payload)).1 ∧ (strtol10 (cString payload)).1 ≤ hi) →
      ReadNumericResponse lo hi (.report id payload) =
        (.SUCCESS, some (strtol10 (cString payload)).1)) := by
  have hmain : ReadNumericResponse lo hi (.report id payload) =
      (if id ≠ REPORT_ID_CMD then (.ERROR_BAD_RESPONSE, none)
       else if (strtol10 (cString payload)).2 ≠ (cString payload).length then
         (.ERROR_BAD_RESPONSE, none)
       else if (strtol10 (cString payload)).1 < lo ∨ hi < (strtol10 (cString payload)).1 then
         (.ERROR_BAD_RESPONSE, none)
       else (.SUCCESS, some (strtol10 (cString payload)).1)) := rfl
  rw [hmain]
  split_ifs with h1 h2 h3
  · exact ⟨by simp [h1], by tauto⟩
  · exact ⟨by simp [h2], by tauto⟩
  · refine ⟨by simp [h3], ?_⟩
    intro hc
    rcases h3 with h3 | h3 <;> omega
  · constructor
    · constructor
      · intro hbad
        exact absurd (congrArg Prod.fst hbad) (by simp)
      · intro hdisj
        rcases hdisj with h | h | h | h
        · exact absurd h (by simpa using h1)
        · exact absurd h h2
        · exact absurd h (by tauto)
        · exact absurd h (by tauto)
    · intro _
      rfl

/-- C1 witness: the amended characterization applied to the concrete
response report carrying the payload "3" with range [0, 255]. -/
theorem readNumericResponse_amended_witness :
    ReadNumericResponse 0 255 (.report 1 [51, 0, 0, 0, 0, 0, 0]) =
      (.SUCCESS, some (strtol10 (cString [51, 0, 0, 0, 0, 0, 0])).1) :=
  (readNumericResponse_amended 1 [51, 0, 0, 0, 0, 0, 0] 0 255 (by decide)).2
    (by decide)

/-- Helper: the filter test unfolded into its three conjunctive clauses. -/
theorem deviceMatches_iff (vid pid : Nat) (serial : Option String)
    (c : RelaconDeviceInfo) :
    deviceMatches vid pid serial c = true ↔
      (vid = 0 ∨ vid = c.vid) ∧ (pid = 0 ∨ pid = c.pid) ∧
      (∀ s, serial = some s → c.serialNum = some s) := by
  unfold deviceMatches
  cases serial with
  | none =>
      simp [Bool.and_eq_true, decide_eq_true_eq]
  | some s =>
      cases hc : c.serialNum with
      | none =>
          simp only [Bool.and_eq_true, decide_eq_true_eq, Bool.or_eq_true]
          constructor
          · rintro ⟨_, hfalse⟩
            exact absurd hfalse (by simp)
          · rintro ⟨_, _, hser⟩
            exact absurd (hser s rfl) (by simp)
      | some cs =>
          simp only [Bool.and_eq_true, decide_eq_true_eq, Bool.or_eq_true]
          constructor
          · rintro ⟨⟨hv, hp⟩, hs⟩
            refine ⟨hv, hp, ?_⟩
            intro s2 hs2
            obtain rfl : s = s2 := by injection hs2
            rw [hs]
          · rintro ⟨hv, hp, hser⟩
            have h2 : cs = s := by
              have h3 := hser s rfl
              injection h3
            exact ⟨⟨hv, hp⟩, h2.symm⟩

/-- Helper: the search returns NULL exactly when no entry passes the
filter test. -/
theorem findFirst_eq_none (l : List RelaconDeviceInfo) (vid pid : Nat)
    (serial : Option String) :
    FindFirstMatchingDevice l vid pid serial = none ↔
      ∀ c ∈ l, deviceMatches vid pid serial c = false := by
  induction l with
  | nil => simp [FindFirstMatchingDevice]
  | cons a rest ih =>
      by_cases ha : deviceMatches vid pid serial a
      · simp [FindFirstMatchingDevice, ha]
      · simp only [FindFirstMatchingDevice, if_neg ha]
        rw [ih]
        constructor
        · intro hall
          intro c hc
          rcases List.mem_cons.mp hc with rfl | hc2
          · simpa using ha
          · exact hall c hc2
        · intro hall c hc
          exact hall c (List.mem_cons_of_mem a hc)

/-- Helper: a found entry is the first matching entry in enumeration
order: everything before it in the listing fails the filter. -/
theorem findFirst_eq_some (l : List RelaconDeviceInfo) (vid pid : Nat)
    (serial : Option String) (c : RelaconDeviceInfo)
    (hfind : FindFirstMatchingDevice l vid pid serial = some c) :
    ∃ l1 l2, l = l1 ++ c :: l2 ∧ deviceMatches vid pid serial c = true ∧
      ∀ b ∈ l1, deviceMatches vid pid serial b = false := by
  induction l with
  | nil => exact absurd hfind (by simp [FindFirstMatchingDevice])
  | cons a rest ih =>
      by_cases ha : deviceMatches vid pid serial a
      · rw [FindFirstMatchingDevice, if_pos ha] at hfind
        obtain rfl : a = c := by injection hfind
        exact ⟨[], rest, rfl, ha, by simp⟩
      · rw [FindFirstMatchingDevice, if_neg ha] at hfind
        obtain ⟨l1, l2, hl, hm, hall⟩ := ih hfind
        refine ⟨a :: l1, l2, by rw [hl]; rfl, hm, ?_⟩
        intro b hb
        rcases List.mem_cons.mp hb with rfl | hb2
        · simpa using ha
        · exact hall b hb2

/-- C5: the open-time filter is conjunctive (each supplied non-wildcard
filter must match, serial matching requiring an equal candidate serial
string), the selected entry is the first match in enumeration order, and
open returns NULL when no entry matches. -/
theorem open_filter_spec (l : List RelaconDeviceInfo) (vid pid : Nat)
    (serial : Option String) :
    (∀ c, deviceMatches vid pid serial c = true ↔
      (vid = 0 ∨ vid = c.vid) ∧ (pid = 0 ∨ pid = c.pid) ∧
      (∀ s, serial = some s → c.serialNum = some s)) ∧
    (∀ c, FindFirstMatchingDevice l vid pid serial = some c →
      ∃ l1 l2, l = l1 ++ c :: l2 ∧ deviceMatches vid pid serial c = true ∧
        ∀ b ∈ l1, deviceMatches vid pid serial b = false) ∧
    (FindFirstMatchingDevice l vid pid serial = none ↔
      ∀ c ∈ l, deviceMatches vid pid serial c = false) ∧
    ((∀ c ∈ l, deviceMatches vid pid serial c = false) →
      ∀ backendOpenOk devAllocOk,
        RelaconDeviceOpen l vid pid serial backendOpenOk devAllocOk = none) := by
  refine ⟨fun c => deviceMatches_iff vid pid serial c,
    fun c => findFirst_eq_some l vid pid serial c,
    findFirst_eq_none l vid pid serial, ?_⟩
  intro hall backendOpenOk devAllocOk
  have hnone : FindFirstMatchingDevice l vid pid serial = none :=
    (findFirst_eq_none l vid pid serial).mpr hall
  unfold RelaconDeviceOpen
  rw [hnone]

/-- C5 witness: the spec applied to a concrete two-entry listing with a
serial filter that only the second entry satisfies. -/
theorem open_filter_spec_witness :
    FindFirstMatchingDevice
        [⟨0x0a07, 208, none, none, none, 8, 8⟩,
         ⟨0x0a07, 218, some "B", none, none, 8, 8⟩]
        0x0a07 0 (some "B") = some ⟨0x0a07, 218, some "B", none, none, 8, 8⟩ ∧
    RelaconDeviceOpen [⟨0x0a07, 208, none, none, none, 8, 8⟩] 0 0 (some "Z")
        true true = none := by
  refine ⟨by decide, ?_⟩
  exact (open_filter_spec [⟨0x0a07, 208, none, none, none, 8, 8⟩] 0 0
    (some "Z")).2.2.2 (by decide) true true

/-- Helper: strncpy of a NUL-free source that fits in the bound copies the
source verbatim and zero-pads the rest. -/
theorem strncpyBytes_no_nul (src : List Nat) (n : Nat) (hnz : 0 ∉ src)
    (hlen : src.length ≤ n) :
    strncpyBytes src n = src ++ List.replicate (n - src.length) 0 := by
  induction src generalizing n with
  | nil =>
      cases n with
      | zero => rfl
      | succ m => simp [strncpyBytes]
  | cons b rest ih =>
      cases n with
      | zero => exact absurd hlen (by simp)
      | succ m =>
          have hb : b ≠ 0 := fun h => hnz (h ▸ List.mem_cons_self b rest)
          have hrest : 0 ∉ rest := fun h => hnz (List.mem_cons_of_mem b h)
          have hlen2 : rest.length ≤ m := by
            simpa [Nat.succ_le_succ_iff] using hlen
          simp only [strncpyBytes, if_neg hb]
          rw [ih m hrest hlen2]
          simp [List.length_cons, Nat.succ_sub_succ]

/-- Helper: strncpy writes exactly its byte count. -/
theorem strncpyBytes_length (src : List Nat) (n : Nat) :
    (strncpyBytes src n).length = n := by
  induction n generalizing src with
  | zero => cases src <;> rfl
  | succ m ih =>
      cases src with
      | nil => simp [strncpyBytes]
      | cons b rest =>
          by_cases hb : b = 0
          · simp [strncpyBytes, hb]
          · simp [strncpyBytes, hb, ih rest]

/-- Helper: the copied window contains a NUL exactly when the source
string (bytes before its first NUL) ends strictly inside the window. -/
theorem zero_mem_strncpyBytes (src : List Nat) (n : Nat) :
    0 ∈ strncpyBytes src n ↔ (cString src).length + 1 ≤ n := by
  induction n generalizing src with
  | zero => cases src <;> simp [strncpyBytes]
  | succ m ih =>
      cases src with
      | nil => simp [strncpyBytes, cString]
      | cons b rest =>
          by_cases hb : b = 0
          · simp [strncpyBytes, hb, cString]
          · simp only [strncpyBytes, if_neg hb, List.mem_cons]
            rw [ih rest]
            have hc : cString (b :: rest) = b :: cString rest := by
              simp [cString, hb]
            rw [hc]
            simp only [List.length_cons]
            constructor
            · intro hor
              rcases hor with h0 | hmem
              · exact absurd h0.symm hb
              · omega
            · intro hle
              right
              omega

/-- C6: raw command write rejects a command longer than 7 bytes with
ERROR_INVALID_PARAM before sending anything; otherwise it sends exactly
one 8-byte report whose leading byte is the report identifier 1 and whose
7 data bytes are the command verbatim, zero-padded. -/
theorem rawWrite_spec (d : DevState) (cmd : List Nat) (t : Transport)
    (hnz : 0 ∉ cmd) :
    (7 < cmd.length →
      RelaconDeviceRawWrite (some d) (some cmd) t = ⟨.ERROR_INVALID_PARAM, []⟩) ∧
    (cmd.length ≤ 7 →
      (RelaconDeviceRawWrite (some d) (some cmd) t).sent =
        [REPORT_ID_CMD :: (cmd ++ List.replicate (7 - cmd.length) 0)] ∧
      ∀ r ∈ (RelaconDeviceRawWrite (some d) (some cmd) t).sent, r.length = 8) := by
  constructor
  · intro hlong
    simp only [RelaconDeviceRawWrite]
    rw [if_pos hlong]
  · intro hfits
    have hle : ¬ 7 < cmd.length := by omega
    have hsent : (RelaconDeviceRawWrite (some d) (some cmd) t).sent =
        [REPORT_ID_CMD :: strncpyBytes cmd 7] := by
      simp only [RelaconDeviceRawWrite]
      rw [if_neg hle]
    rw [hsent, strncpyBytes_no_nul cmd 7 hnz hfits]
    refine ⟨rfl, ?_⟩
    intro r hr
    obtain rfl : r = REPORT_ID_CMD :: (cmd ++ List.replicate (7 - cmd.length) 0) := by
      simpa using hr
    simp [List.length_cons]
    omega

/-- C6 witness: raw write of the 3-byte command "SK1". -/
theorem rawWrite_spec_witness :
    (RelaconDeviceRawWrite (some ⟨8, 8⟩) (some [83, 75, 49])
        ⟨true, .timedOut⟩).sent =
      [REPORT_ID_CMD :: ([83, 75, 49] ++ List.replicate (7 - [83, 75, 49].length) 0)] :=
  ((rawWrite_spec ⟨8, 8⟩ [83, 75, 49] ⟨true, .timedOut⟩ (by decide)).2
    (by decide)).1

/-- C7: raw response read writes exactly `len` bytes into the caller's
buffer (never more), and a NUL terminator lands in the buffer exactly when
the full response string plus its terminator fit within `len` bytes. -/
theorem rawRead_spec (d : DevState) (len id : Nat) (payload memBeyond : List Nat)
    (hlen7 : payload.length = 7) (hmem : len ≤ 7 + memBeyond.length) :
    ∃ buf,
      RelaconDeviceRawRead (some d) false len memBeyond (.report id payload) =
        (.SUCCESS, some buf) ∧
      buf.length ≤ len ∧
      (0 ∈ buf ↔ (cString (payload ++ memBeyond)).length + 1 ≤ len) := by
  refine ⟨strncpyBytes (payload ++ memBeyond) len, rfl, ?_, ?_⟩
  · rw [strncpyBytes_length]
  · exact zero_mem_strncpyBytes (payload ++ memBeyond) len

/-- C7 witness: a 16-byte destination buffer receiving the response "7"
(payload [55, 0, ...]): the buffer holds at most 16 bytes and, since the
2-byte string-plus-terminator fits, a NUL terminator. -/
theorem rawRead_spec_witness :
    ∃ buf,
      RelaconDeviceRawRead (some ⟨8, 8⟩) false 16 [0, 0, 0, 0, 0, 0, 0, 0, 0]
          (.report 1 [55, 0, 0, 0, 0, 0, 0]) = (.SUCCESS, some buf) ∧
      buf.length ≤ 16 ∧
      (0 ∈ buf ↔
        (cString ([55, 0, 0, 0, 0, 0, 0] ++ [0, 0, 0, 0, 0, 0, 0, 0, 0])).length + 1 ≤ 16) :=
  rawRead_spec ⟨8, 8⟩ 16 1 [55, 0, 0, 0, 0, 0, 0] [0, 0, 0, 0, 0, 0, 0, 0, 0]
    (by decide) (by decide)

/-- C4 counterexample: in the hidapi backend a supported, eligible
candidate whose open-for-string-fetch fails is NOT skipped: enumeration
succeeds and the listing contains the candidate with all three identity
strings absent, where the claim predicts an empty listing. -/
theorem listingCreation_counterexample :
    DeviceListEntriesCreateHidapi true
        [⟨0x0a07, 208, 1, true, false, .absent, .absent, .absent⟩] =
      (.SUCCESS, [⟨0x0a07, 208, none, none, none, 8, 8⟩]) ∧
    (DeviceListEntriesCreateHidapi true
        [⟨0x0a07, 208, 1, true, false, .absent, .absent, .absent⟩]).2 ≠ [] := by
  decide

/-- C4 (amended): in the libusb backend an individual candidate failure
that is not out-of-memory is skipped and enumeration continues, while an
out-of-memory failure (entry allocation or string-buffer allocation)
aborts the whole enumeration with every entry rolled back. In the hidapi
backend a supported, eligible candidate whose entry allocation succeeds is
always kept (with whatever strings its populate step produced, in
particular all-absent strings when the open for string fetch fails, and an
ignored string-fetch out-of-memory) and the outcome is that of the rest of
the list; only a failing entry allocation aborts with full rollback. -/
theorem listingCreation_amended
    (dU : UsbDev) (restU : List UsbDev) (capU : DeviceCapabilities)
    (stU : RelaconStatus)
    (dO : UsbDev) (restO : List UsbDev) (capO : DeviceCapabilities)
    (dH : HidDev) (restH : List HidDev) (capH : DeviceCapabilities) (fu : Bool)
    (dG : HidDev) (restG : List HidDev) (capG : DeviceCapabilities) (fg : Bool)
    (hU1 : DeviceCapabilitiesQuery dU.vendorId dU.productId = some capU)
    (hU2 : DeviceListEntryCreateUsb dU capU = .error stU)
    (hU3 : stU ≠ .ERROR_OUT_OF_MEMORY)
    (hO1 : DeviceCapabilitiesQuery dO.vendorId dO.productId = some capO)
    (hO2 : DeviceListEntryCreateUsb dO capO = .error .ERROR_OUT_OF_MEMORY)
    (hH1 : DeviceCapabilitiesQuery dH.vendorId dH.productId = some capH)
    (hH2 : IsPotentialRelaconDevice fu dH = true)
    (hH3 : dH.entryAllocOk = true)
    (hG1 : DeviceCapabilitiesQuery dG.vendorId dG.productId = some capG)
    (hG2 : IsPotentialRelaconDevice fg dG = true)
    (hG3 : dG.entryAllocOk = false) :
    DeviceListEntriesCreateUsb (dU :: restU) = DeviceListEntriesCreateUsb restU ∧
    DeviceListEntriesCreateUsb (dO :: restO) = (.ERROR_OUT_OF_MEMORY, []) ∧
    DeviceListEntriesCreateHidapi fu (dH :: restH) =
      ((DeviceListEntriesCreateHidapi fu restH).1,
       if (DeviceListEntriesCreateHidapi fu restH).1 = .SUCCESS
       then DeviceInfoPopulateHidapi dH capH ::
         (DeviceListEntriesCreateHidapi fu restH).2
       else []) ∧
    DeviceListEntriesCreateHidapi fg (dG :: restG) = (.ERROR_OUT_OF_MEMORY, []) := by
  refine ⟨?_, ?_, ?_, ?_⟩
  · simp only [DeviceListEntriesCreateUsb, hU1, hU2]
    rw [if_neg hU3]
  · simp [DeviceListEntriesCreateUsb, hO1, hO2]
  · simp only [DeviceListEntriesCreateHidapi, hH1, hH2, hH3, if_true]
  · simp [DeviceListEntriesCreateHidapi, hG1, hG2, hG3]

/-- C4 witness: the amended behaviour at four concrete one-element raw
device lists: a libusb candidate that cannot be opened (skipped), a libusb
candidate with a string-buffer malloc failure (aborts), a hidapi candidate
that cannot be opened (kept with absent strings), and a hidapi candidate
whose entry malloc fails (aborts). -/
theorem listingCreation_amended_witness :
    DeviceListEntriesCreateUsb
        [⟨0x0a07, 208, true, false, .noDescriptor, .noDescriptor, .noDescriptor⟩] =
      DeviceListEntriesCreateUsb [] ∧
    DeviceListEntriesCreateUsb
        [⟨0x0a07, 208, true, true, .allocFail, .noDescriptor, .noDescriptor⟩] =
      (.ERROR_OUT_OF_MEMORY, []) ∧
    DeviceListEntriesCreateHidapi true
        [⟨0x0a07, 218, 1, true, false, .absent, .absent, .absent⟩] =
      ((DeviceListEntriesCreateHidapi true []).1,
       if (DeviceListEntriesCreateHidapi true []).1 = .SUCCESS
       then DeviceInfoPopulateHidapi ⟨0x0a07, 218, 1, true, false, .absent, .absent, .absent⟩
         ⟨8, 8⟩ :: (DeviceListEntriesCreateHidapi true []).2
       else []) ∧
    DeviceListEntriesCreateHidapi true
        [⟨0x0a07, 208, 1, false, true, .absent, .absent, .absent⟩] =
      (.ERROR_OUT_OF_MEMORY, []) :=
  listingCreation_amended
    ⟨0x0a07, 208, true, false, .noDescriptor, .noDescriptor, .noDescriptor⟩ []
    ⟨8, 8⟩ .ERROR_INTERNAL
    ⟨0x0a07, 208, true, true, .allocFail, .noDescriptor, .noDescriptor⟩ [] ⟨8, 8⟩
    ⟨0x0a07, 218, 1, true, false, .absent, .absent, .absent⟩ [] ⟨8, 8⟩ true
    ⟨0x0a07, 208, 1, false, true, .absent, .absent, .absent⟩ [] ⟨8, 8⟩ true
    (by decide) rfl (by decide) (by decide) rfl (by decide)
    (by decide) (by decide) (by decide) (by decide) (by decide)

/-- Helper: a looked-up cell id is below any bound dominating the list. -/
theorem lookupCell_lt (cells : List (Nat × String)) (n p : Nat) (s : String)
    (hwf : ∀ c ∈ cells, c.1 < n) (hl : lookupCell cells p = some s) :
    p < n := by
  induction cells with
  | nil => exact absurd hl (by simp [lookupCell])
  | cons c rest ih =>
      by_cases hc : c.1 = p
      · have := hwf c (List.mem_cons_self c rest)
        omega
      · simp only [lookupCell, if_neg hc] at hl
        exact ih (fun c2 hc2 => hwf c2 (List.mem_cons_of_mem c hc2)) hl

/-- Helper: a removed cell id no longer resolves. -/
theorem lookupCell_removeCell_self (cells : List (Nat × String)) (p : Nat) :
    lookupCell (removeCell cells p) p = none := by
  induction cells with
  | nil => rfl
  | cons c rest ih =>
      by_cases hc : c.1 = p
      · simp only [removeCell, if_pos hc]
        exact ih
      · simp only [removeCell, if_neg hc, lookupCell, if_neg hc]
        exact ih

/-- Helper: removing one cell id leaves every other id's lookup intact. -/
theorem lookupCell_removeCell_other (cells : List (Nat × String)) (p q : Nat)
    (hpq : p ≠ q) :
    lookupCell (removeCell cells q) p = lookupCell cells p := by
  induction cells with
  | nil => rfl
  | cons c rest ih =>
      by_cases hc : c.1 = q
      · have hcp : ¬ c.1 = p := by omega
        simp only [removeCell, if_pos hc, lookupCell, if_neg hcp]
        exact ih
      · simp only [removeCell, if_neg hc, lookupCell]
        by_cases hcp : c.1 = p
        · simp [if_pos hcp]
        · simp only [if_neg hcp]
          exact ih

/-- Helper: a freed pointer dereferences to nothing. -/
theorem StrHeap.deref_free_self (h : StrHeap) (p : Nat) :
    (h.free p).deref p = none :=
  lookupCell_removeCell_self h.cells p

/-- Helper: freeing one pointer leaves every other pointer's contents. -/
theorem StrHeap.deref_free_other (h : StrHeap) (p q : Nat) (hpq : p ≠ q) :
    (h.free q).deref p = h.deref p :=
  lookupCell_removeCell_other h.cells p q hpq

/-- Helper: in a well-formed heap every live pointer is below the
allocation counter, hence distinct from every pointer allocated later. -/
theorem StrHeap.deref_lt_next (h : StrHeap) (hwf : h.WF) (p : Nat) (s : String)
    (hd : h.deref p = some s) : p < h.next :=
  lookupCell_lt h.cells h.next p s hwf hd

/-- C8: opening a session strdup-copies the matched entry's product,
manufacturer and serial strings into three fresh allocations distinct from
the listing's own allocations, so after the transient listing's strings
are freed the session's copies still dereference to the original contents,
and closing the session frees exactly those copies. -/
theorem session_strings_spec (h : StrHeap) (info : InfoStrings)
    (pp pm ps : Nat) (sp sm ss : String)
    (hwf : StrHeap.WF h)
    (hip : info.product = some pp) (him : info.manufacturer = some pm)
    (his : info.serialNum = some ps)
    (hdp : h.deref pp = some sp) (hdm : h.deref pm = some sm)
    (hds : h.deref ps = some ss) :
    ∃ qp qm qs,
      (SessionCopyStrings h info).2 = ⟨some qs, some qm, some qp⟩ ∧
      qp ≠ pp ∧ qp ≠ pm ∧ qp ≠ ps ∧ qm ≠ pp ∧ qm ≠ pm ∧ qm ≠ ps ∧
      qs ≠ pp ∧ qs ≠ pm ∧ qs ≠ ps ∧
      (ListingEntryDestroy (SessionCopyStrings h info).1 info).deref qp = some sp ∧
      (ListingEntryDestroy (SessionCopyStrings h info).1 info).deref qm = some sm ∧
      (ListingEntryDestroy (SessionCopyStrings h info).1 info).deref qs = some ss ∧
      (SessionClose (ListingEntryDestroy (SessionCopyStrings h info).1 info)
          (SessionCopyStrings h info).2).deref qp = none ∧
      (SessionClose (ListingEntryDestroy (SessionCopyStrings h info).1 info)
          (SessionCopyStrings h info).2).deref qm = none ∧
      (SessionClose (ListingEntryDestroy (SessionCopyStrings h info).1 info)
          (SessionCopyStrings h info).2).deref qs = none := by
  have hpp := StrHeap.deref_lt_next h hwf pp sp hdp
  have hpm := StrHeap.deref_lt_next h hwf pm sm hdm
  have hps := StrHeap.deref_lt_next h hwf ps ss hds
  have s1 : strdupPtr h info.product =
      (⟨h.next + 1, (h.next, sp) :: h.cells⟩, some h.next) := by
    rw [hip]
    simp only [strdupPtr, hdp]
    rfl
  have d1 : StrHeap.deref ⟨h.next + 1, (h.next, sp) :: h.cells⟩ pm = some sm := by
    show lookupCell ((h.next, sp) :: h.cells) pm = some sm
    simp only [lookupCell]
    rw [if_neg (by omega)]
    exact hdm
  have s2 : strdupPtr (⟨h.next + 1, (h.next, sp) :: h.cells⟩ : StrHeap)
      info.manufacturer =
      (⟨h.next + 2, (h.next + 1, sm) :: (h.next, sp) :: h.cells⟩,
       some (h.next + 1)) := by
    rw [him]
    simp only [strdupPtr, d1]
    rfl
  have d2 : StrHeap.deref
      ⟨h.next + 2, (h.next + 1, sm) :: (h.next, sp) :: h.cells⟩ ps = some ss := by
    show lookupCell ((h.next + 1, sm) :: (h.next, sp) :: h.cells) ps = some ss
    simp only [lookupCell]
    rw [if_neg (by omega), if_neg (by omega)]
    exact hds
  have s3 : strdupPtr
      (⟨h.next + 2, (h.next + 1, sm) :: (h.next, sp) :: h.cells⟩ : StrHeap)
      info.serialNum =
      (⟨h.next + 3, (h.next + 2, ss) :: (h.next + 1, sm) :: (h.next, sp) :: h.cells⟩,
       some (h.next + 2)) := by
    rw [his]
    simp only [strdupPtr, d2]
    rfl
  have hcopy : SessionCopyStrings h info =
      (⟨h.next + 3, (h.next + 2, ss) :: (h.next + 1, sm) :: (h.next, sp) :: h.cells⟩,
       ⟨some (h.next + 2), some (h.next + 1), some h.next⟩) := by
    simp only [SessionCopyStrings, s1, s2, s3]
  have hdest : ∀ (H : StrHeap) (q : Nat), q ≠ pp → q ≠ pm → q ≠ ps →
      (ListingEntryDestroy H info).deref q = H.deref q := by
    intro H q h1 h2 h3
    simp only [ListingEntryDestroy, him, hip, his, freeOpt]
    rw [StrHeap.deref_free_other ((H.free pm).free pp) q ps h3,
        StrHeap.deref_free_other (H.free pm) q pp h1,
        StrHeap.deref_free_other H q pm h2]
  have hb1 : StrHeap.deref
      ⟨h.next + 3, (h.next + 2, ss) :: (h.next + 1, sm) :: (h.next, sp) :: h.cells⟩
      h.next = some sp := by
    show lookupCell _ h.next = some sp
    simp only [lookupCell]
    rw [if_neg (by omega), if_neg (by omega)]
    simp
  have hb2 : StrHeap.deref
      ⟨h.next + 3, (h.next + 2, ss) :: (h.next + 1, sm) :: (h.next, sp) :: h.cells⟩
      (h.next + 1) = some sm := by
    show lookupCell _ (h.next + 1) = some sm
    simp only [lookupCell]
    rw [if_neg (by omega)]
    simp
  have hb3 : StrHeap.deref
      ⟨h.next + 3, (h.next + 2, ss) :: (h.next + 1, sm) :: (h.next, sp) :: h.cells⟩
      (h.next + 2) = some ss := by
    show lookupCell _ (h.next + 2) = some ss
    simp only [lookupCell]
    simp
  have hclose : ∀ (H : StrHeap) (q1 q2 q3 : Nat), q1 ≠ q2 → q1 ≠ q3 → q2 ≠ q3 →
      (((H.free q1).free q2).free q3).deref q1 = none ∧
      (((H.free q1).free q2).free q3).deref q2 = none ∧
      (((H.free q1).free q2).free q3).deref q3 = none := by
    intro H q1 q2 q3 h12 h13 h23
    refine ⟨?_, ?_, ?_⟩
    · rw [StrHeap.deref_free_other ((H.free q1).free q2) q1 q3 h13,
          StrHeap.deref_free_other (H.free q1) q1 q2 h12]
      exact StrHeap.deref_free_self H q1
    · rw [StrHeap.deref_free_other ((H.free q1).free q2) q2 q3 h23]
      exact StrHeap.deref_free_self (H.free q1) q2
    · exact StrHeap.deref_free_self ((H.free q1).free q2) q3
  refine ⟨h.next, h.next + 1, h.next + 2, ?_,
    by omega, by omega, by omega, by omega, by omega, by omega,
    by omega, by omega, by omega, ?_, ?_, ?_, ?_, ?_, ?_⟩
  · rw [hcopy]
  · simp only [hcopy]
    rw [hdest _ h.next (by omega) (by omega) (by omega)]
    exact hb1
  · simp only [hcopy]
    rw [hdest _ (h.next + 1) (by omega) (by omega) (by omega)]
    exact hb2
  · simp only [hcopy]
    rw [hdest _ (h.next + 2) (by omega) (by omega) (by omega)]
    exact hb3
  · simp only [hcopy, SessionClose, freeOpt]
    exact (hclose _ h.next (h.next + 1) (h.next + 2)
      (by omega) (by omega) (by omega)).1
  · simp only [hcopy, SessionClose, freeOpt]
    exact (hclose _ h.next (h.next + 1) (h.next + 2)
      (by omega) (by omega) (by omega)).2.1
  · simp only [hcopy, SessionClose, freeOpt]
    exact (hclose _ h.next (h.next + 1) (h.next + 2)
      (by omega) (by omega) (by omega)).2.2

/-- C8 witness: the ownership theorem at a concrete three-cell heap whose
listing entry points at "P", "M" and "S". -/
theorem session_strings_spec_witness :
    ∃ qp qm qs,
      (SessionCopyStrings ⟨3, [(0, "P"), (1, "M"), (2, "S")]⟩
          ⟨some 2, some 1, some 0⟩).2 = ⟨some qs, some qm, some qp⟩ ∧
      qp ≠ 0 ∧ qp ≠ 1 ∧ qp ≠ 2 ∧ qm ≠ 0 ∧ qm ≠ 1 ∧ qm ≠ 2 ∧
      qs ≠ 0 ∧ qs ≠ 1 ∧ qs ≠ 2 ∧
      (ListingEntryDestroy
          (SessionCopyStrings ⟨3, [(0, "P"), (1, "M"), (2, "S")]⟩
            ⟨some 2, some 1, some 0⟩).1
          ⟨some 2, some 1, some 0⟩).deref qp = some "P" ∧
      (ListingEntryDestroy
          (SessionCopyStrings ⟨3, [(0, "P"), (1, "M"), (2, "S")]⟩
            ⟨some 2, some 1, some 0⟩).1
          ⟨some 2, some 1, some 0⟩).deref qm = some "M" ∧
      (ListingEntryDestroy
          (SessionCopyStrings ⟨3, [(0, "P"), (1, "M"), (2, "S")]⟩
            ⟨some 2, some 1, some 0⟩).1
          ⟨some 2, some 1, some 0⟩).deref qs = some "S" ∧
      (SessionClose
          (ListingEntryDestroy
            (SessionCopyStrings ⟨3, [(0, "P"), (1, "M"), (2, "S")]⟩
              ⟨some 2, some 1, some 0⟩).1
            ⟨some 2, some 1, some 0⟩)
          (SessionCopyStrings ⟨3, [(0, "P"), (1, "M"), (2, "S")]⟩
            ⟨some 2, some 1, some 0⟩).2).deref qp = none ∧
      (SessionClose
          (ListingEntryDestroy
            (SessionCopyStrings ⟨3, [(0, "P"), (1, "M"), (2, "S")]⟩
              ⟨some 2, some 1, some 0⟩).1
            ⟨some 2, some 1, some 0⟩)
          (SessionCopyStrings ⟨3, [(0, "P"), (1, "M"), (2, "S")]⟩
            ⟨some 2, some 1, some 0⟩).2).deref qm = none ∧
      (SessionClose
          (ListingEntryDestroy
            (SessionCopyStrings ⟨3, [(0, "P"), (1, "M"), (2, "S")]⟩
              ⟨some 2, some 1, some 0⟩).1
            ⟨some 2, some 1, some 0⟩)
          (SessionCopyStrings ⟨3, [(0, "P"), (1, "M"), (2, "S")]⟩
            ⟨some 2, some 1, some 0⟩).2).deref qs = none :=
  session_strings_spec ⟨3, [(0, "P"), (1, "M"), (2, "S")]⟩
    ⟨some 2, some 1, some 0⟩ 0 1 2 "P" "M" "S"
    (by intro c hc; fin_cases hc <;> simp)
    rfl rfl rfl rfl rfl rfl

end Relacon
